import Mathlib

/-!
Verification of the session and response-orchestration layer of shell_gpt
(`src/sgpt/app.py`). The `main` entry point is embedded as a fuel-indexed
interpreter over an abstract environment supplying the external
collaborators (completion service responses, the role registry for named
roles, the interactive input stream, and the shell-confirmation choice
stream). The interpreter returns the ordered trace of observable events
(completion requests, printed lines, executed commands, confirmation
prompts) together with an outcome: normal return, fuel exhaustion
(modelling an external interrupt of an unbounded loop), or a raised error.
-/

namespace SGpt

/-- Expected output shape of a persona, from the spec data model. -/
inductive OutputKind
  | freeText
  | shellCommand
  | codeText
  | description
deriving DecidableEq, Repr

/-- Role value: name, system prompt and expected output shape. -/
structure Role where
  name : String
  system_prompt : String
  expected_output_kind : OutputKind
deriving DecidableEq, Repr

/-- Modelled from the spec: the default persona (plain assistant, free text). -/
def defaultRole : Role := ⟨"ShellGPT", "default assistant", OutputKind.freeText⟩

/-- Modelled from the spec: the shell-command persona (`DefaultRoles.SHELL`). -/
def shellRole : Role := ⟨"Shell Command Generator", "shell", OutputKind.shellCommand⟩

/-- Modelled from the spec: the shell-description persona (`DefaultRoles.DESCRIBE_SHELL`). -/
def describeShellRole : Role := ⟨"Shell Command Descriptor", "describe shell", OutputKind.description⟩

/-- Modelled from the spec: the code persona (`DefaultRoles.CODE`). -/
def codeRole : Role := ⟨"Code Generator", "only code", OutputKind.codeText⟩

/-- Modelled from the spec: `DefaultRoles.check_get` (module `sgpt.role`, not under
`src/`) derives the persona from the mutually exclusive mode flags
(shell / describe-shell / code / plain default). In `main` it is only reached
after the conflicting-flags guard, so at most one flag is set here. -/
def check_get (shell describe_shell codeFlag : Bool) : Role :=
  if shell then shellRole
  else if describe_shell then describeShellRole
  else if codeFlag then codeRole
  else defaultRole

/-- Which handler object issued a completion. `chatHandler` records the chat id
the handler was constructed with. -/
inductive Handler
  | chatHandler (ctorChatId : Option String)
  | defaultHandler
  | replHandler (replId : String)
deriving DecidableEq, Repr

/-- Observable events of a run, in program order. -/
inductive Event
  | completion (h : Handler) (role : Role) (prompt : Option String)
      (chat_id : Option String) (response : String)
  | output (s : String)
  | runCmd (cmd : String)
  | choicePrompt
deriving DecidableEq, Repr

/-- Errors `main` can raise. `badArgumentUsage` carries the exact message of the
corresponding `BadArgumentUsage` in the source; `nameError` models a Python
`NameError` on an unbound local variable. -/
inductive Err
  | missingParameter
  | badArgumentUsage (msg : String)
  | nameError (n : String)
deriving DecidableEq, Repr

/-- How a run ended: normal return, fuel exhaustion of an unbounded loop
(external interrupt), or a raised error. -/
inductive Outcome
  | finished
  | outOfFuel
  | errored (e : Err)
deriving DecidableEq, Repr

/-- A single choice delivered by the confirmation prompt; the input layer only
ever delivers one of `e`, `d`, `a`, `y` (the `Choice` set of the source). -/
inductive SChoice
  | e
  | d
  | a
  | y
deriving DecidableEq, Repr

/-- Abstract environment: the external collaborators of `main`.
`getRole` models `SystemRole.get` (durable role registry, not under `src/`),
applied to the exact optional role name the source passes; `oracle k` is the
completion text returned for the k-th completion request of the run;
`userInputs i` is the i-th line read by `input`; `shellChoices i` is the i-th
delivered confirmation choice. -/
structure Env where
  getRole : Option String → Role
  oracle : Nat → String
  userInputs : Nat → String
  shellChoices : Nat → SChoice

/-- Python truthiness of an optional string: `None` and the empty string are
falsy. -/
def truthy : Option String → Bool
  | none => false
  | some s => !s.isEmpty

/-- Lines 160-161 of `app.py`: when stdin is piped and no repl option is given,
the prompt becomes the full stdin content, two newlines, then the prompt
argument or the empty string. -/
def rewrittenPrompt (stdin : Option String) (repl : Option String)
    (prompt : Option String) : Option String :=
  match stdin with
  | none => prompt
  | some s => if truthy repl then prompt else some (s ++ "\n\n" ++ prompt.getD "")

/-- Number of assistance-mode flags set (`sum((shell, describe_shell, code))`). -/
def modeFlagCount (shell describe_shell codeFlag : Bool) : Nat :=
  (cond shell 1 0) + (cond describe_shell 1 0) + (cond codeFlag 1 0)

/-- Message of the conflicting-modes `BadArgumentUsage` (line 182). -/
def conflictMsg : String :=
  "Only one of --shell, --describe-shell, and --code options can be used at a time."

/-- Message of the chat-plus-repl `BadArgumentUsage` (line 187). -/
def chatReplMsg : String := "--chat and --repl options cannot be used together."

/-- Message of the editor-plus-stdin `BadArgumentUsage` (line 190). -/
def editorStdinMsg : String := "--editor option cannot be used with stdin input."

/-- Request: the `main` parameters the control flow inspects. Sampling
parameters (`temperature`, `top_probability`) and `cache` are passed through
to handlers unchanged and never branched on, so they are not carried in
events; parse-time callback options (`show_chat`, `list_chats`, role
management, shell integration) run outside `main` and are out of scope. -/
structure Req where
  prompt : Option String
  model : String
  shell : Bool
  describe_shell : Bool
  codeFlag : Bool
  editor : Bool
  cache : Bool
  chat : Option String
  repl : Option String
  role : Option String
  second_ai : Bool
  second_ai_prompt : Option String
  interactive_mode : Bool
deriving Repr

/-- Lines 192-196 of `app.py`: the resolved persona is the named role when a
truthy role name is supplied, otherwise the persona derived from the mode
flags. -/
def resolveRole (env : Env) (req : Req) : Role :=
  if truthy req.role then env.getRole req.role
  else check_get req.shell req.describe_shell req.codeFlag

/-- One `ChatHandler.handle` or `DefaultHandler.handle` call as a trace event:
the k-th completion of the run, answered by the oracle. -/
def handleEvent (env : Env) (h : Handler) (r : Role) (p : Option String)
    (cid : Option String) (k : Nat) : Event :=
  Event.completion h r p cid (env.oracle k)

/-- Lines 14-22 of `app.py`: `handle_second_ai` forwards `second_ai_prompt` to
the given chat handler under the given chat id. -/
def handle_second_ai (env : Env) (ctorChatId : Option String) (r : Role)
    (second_ai_prompt : Option String) (chat_id : Option String) (k : Nat) : Event :=
  handleEvent env (Handler.chatHandler ctorChatId) r second_ai_prompt chat_id k

/-- Lines 24-42 of `app.py`: `handle_user_input` issues one completion for the
user input and prints the exchange. -/
def handle_user_input (env : Env) (ctorChatId : Option String) (r : Role)
    (user_input : String) (chat_id : Option String) (k : Nat) : List Event :=
  [handleEvent env (Handler.chatHandler ctorChatId) r (some user_input) chat_id k,
   Event.output ("You: " ++ user_input),
   Event.output ("AI: " ++ env.oracle k)]

/-- Lines 166-176 of `app.py`: the interactive loop reads a line and calls
`handle_user_input` forever; there is no in-band exit. Fuel exhaustion models
the external interrupt. `i` counts consumed inputs, `k` consumed completions. -/
def interactiveLoop (env : Env) (r : Role) (cid : Option String)
    (i k fuel : Nat) : List Event × Outcome :=
  match fuel with
  | 0 => ([], Outcome.outOfFuel)
  | fuel + 1 =>
    let u := env.userInputs i
    let rest := interactiveLoop env r cid (i + 1) (k + 1) fuel
    (handle_user_input env cid r u cid k ++ rest.1, rest.2)

/-- Modelled from the spec: `ReplHandler.handle` (module
`sgpt.handlers.repl_handler`, not under `src/`) is an unbounded loop that
reads one prompt per iteration from the user, requests a completion with the
fixed chat id and role, prints the exchange, and continues indefinitely with
no data-driven exit; termination is exclusively by external interrupt. -/
def replLoop (env : Env) (r : Role) (replId : String)
    (i k fuel : Nat) : List Event × Outcome :=
  match fuel with
  | 0 => ([], Outcome.outOfFuel)
  | fuel + 1 =>
    let u := env.userInputs i
    let rest := replLoop env r replId (i + 1) (k + 1) fuel
    (handleEvent env (Handler.replHandler replId) r (some u) (some replId) k
       :: Event.output (env.oracle k) :: rest.1, rest.2)

/-- Lines 222-248 of `app.py`: the dual-agent loop. Each iteration sends the
current `prompt` through the primary chat handler (chat id `chat`), prints the
response, sends the current `second_ai_prompt` through the secondary handler
(chat id `"second_ai"`), prints it, then sets `prompt` to the FIRST response
and `second_ai_prompt` to the SECOND response and repeats forever. -/
def dualLoop (env : Env) (r : Role) (chat : Option String)
    (prompt second_ai_prompt : Option String) (k fuel : Nat) : List Event × Outcome :=
  match fuel with
  | 0 => ([], Outcome.outOfFuel)
  | fuel + 1 =>
    let r1 := env.oracle k
    let r2 := env.oracle (k + 1)
    let rest := dualLoop env r chat (some r1) (some r2) (k + 2) fuel
    (Event.completion (Handler.chatHandler chat) r prompt chat r1
       :: Event.output ("First AI: " ++ r1)
       :: Event.completion (Handler.chatHandler (some "second_ai")) r second_ai_prompt
            (some "second_ai") r2
       :: Event.output ("Second AI: " ++ r2)
       :: rest.1, rest.2)

/-- Lines 258-276 of `app.py`: the shell-confirmation loop. Each iteration
presents the choice prompt; `e`/`y` evaluates `full_completion` and runs it,
`d` evaluates `full_completion` and requests a description completion, `a`
matches no branch; in every case the loop body then ends WITHOUT a break, so
the loop condition is re-evaluated and the loop repeats. Evaluating
`full_completion` when it was never assigned raises a `NameError`. `c` counts
consumed choices, `k` consumed completions. -/
def shellLoop (env : Env) (full_completion : Option String)
    (c k fuel : Nat) : List Event × Outcome :=
  match fuel with
  | 0 => ([], Outcome.outOfFuel)
  | fuel + 1 =>
    match env.shellChoices c with
    | SChoice.e =>
      match full_completion with
      | none => ([Event.choicePrompt], Outcome.errored (Err.nameError "full_completion"))
      | some cmd =>
        let rest := shellLoop env full_completion (c + 1) k fuel
        (Event.choicePrompt :: Event.runCmd cmd :: rest.1, rest.2)
    | SChoice.y =>
      match full_completion with
      | none => ([Event.choicePrompt], Outcome.errored (Err.nameError "full_completion"))
      | some cmd =>
        let rest := shellLoop env full_completion (c + 1) k fuel
        (Event.choicePrompt :: Event.runCmd cmd :: rest.1, rest.2)
    | SChoice.d =>
      match full_completion with
      | none => ([Event.choicePrompt], Outcome.errored (Err.nameError "full_completion"))
      | some cmd =>
        let rest := shellLoop env full_completion (c + 1) (k + 1) fuel
        (Event.choicePrompt
           :: handleEvent env Handler.defaultHandler describeShellRole (some cmd) none k
           :: rest.1, rest.2)
    | SChoice.a =>
      let rest := shellLoop env full_completion (c + 1) k fuel
      (Event.choicePrompt :: rest.1, rest.2)

/-- Lines 157-276 of `app.py`: the body of `main`. `stdin` is `some content`
when standard input is piped (`not sys.stdin.isatty()`), `none` when it is
interactive. The guards, their order, and the branch structure mirror the
source; the interactive, repl and dual-agent branches never return in the
source, so the code after them is only reached from the branches that fall
through. -/
def main (env : Env) (req : Req) (stdin : Option String) (fuel : Nat) :
    List Event × Outcome :=
  let stdin_passed := stdin.isSome
  let prompt := rewrittenPrompt stdin req.repl req.prompt
  if req.interactive_mode then
    interactiveLoop env (env.getRole req.role) req.chat 0 0 fuel
  else if !truthy prompt && !req.editor && !truthy req.repl then
    ([], Outcome.errored Err.missingParameter)
  else if 1 < modeFlagCount req.shell req.describe_shell req.codeFlag then
    ([], Outcome.errored (Err.badArgumentUsage conflictMsg))
  else if truthy req.chat && truthy req.repl then
    ([], Outcome.errored (Err.badArgumentUsage chatReplMsg))
  else if req.editor && stdin_passed then
    ([], Outcome.errored (Err.badArgumentUsage editorStdinMsg))
  else
    let role_class := resolveRole env req
    if truthy req.repl then
      replLoop env role_class (req.repl.getD "") 0 0 fuel
    else if truthy req.chat then
      if req.second_ai && req.second_ai_prompt.isSome then
        let pre := [handle_second_ai env req.chat role_class req.second_ai_prompt req.chat 0]
        if req.shell && !stdin_passed then
          let rest := shellLoop env none 0 1 fuel
          (pre ++ rest.1, rest.2)
        else (pre, Outcome.finished)
      else
        dualLoop env role_class req.chat prompt req.second_ai_prompt 0 fuel
    else
      let full_completion := env.oracle 0
      let pre := [handleEvent env Handler.defaultHandler role_class prompt none 0]
      if req.shell && !stdin_passed then
        let rest := shellLoop env (some full_completion) 0 1 fuel
        (pre ++ rest.1, rest.2)
      else (pre, Outcome.finished)

/-- Completion events of a trace. -/
def completions (evs : List Event) : List Event :=
  evs.filter fun e =>
    match e with
    | Event.completion _ _ _ _ _ => true
    | _ => false

/-- Concrete environment: every role name resolves to the default persona, the
k-th completion is `resp<k>`, the i-th interactive input is `user<i>`, every
confirmation choice is Abort. -/
def env0 : Env :=
  { getRole := fun _ => defaultRole
    oracle := fun k => "resp" ++ toString k
    userInputs := fun i => "user" ++ toString i
    shellChoices := fun _ => SChoice.a }

/-- Concrete environment: first confirmation choice is Execute, the rest Abort. -/
def envE : Env := { env0 with shellChoices := fun i => if i = 0 then SChoice.e else SChoice.a }

/-- Concrete environment: first confirmation choice is Describe, the rest Abort. -/
def envD : Env := { env0 with shellChoices := fun i => if i = 0 then SChoice.d else SChoice.a }

/-- Concrete baseline request: prompt `p`, everything else off. -/
def req0 : Req :=
  { prompt := some "p", model := "m", shell := false, describe_shell := false,
    codeFlag := false, editor := false, cache := true, chat := none, repl := none,
    role := none, second_ai := false, second_ai_prompt := none, interactive_mode := false }

/-- Concrete request: chat `c`, second-AI flag, fixed secondary prompt `q`. -/
def reqC1 : Req := { req0 with chat := some "c", second_ai := true, second_ai_prompt := some "q" }

/-- Concrete request: chat `c`, second-AI flag, no fixed secondary prompt
(enters the dual-agent loop). -/
def reqC2 : Req := { req0 with chat := some "c", second_ai := true }

/-- Concrete request: shell mode, prompt `p`. -/
def reqC3 : Req := { req0 with shell := true }

/-- Concrete request: interactive mode together with both shell and code flags. -/
def reqC4 : Req := { req0 with interactive_mode := true, shell := true, codeFlag := true }

/-- Concrete request: explicit named role together with the shell flag. -/
def reqC5 : Req := { req0 with role := some "foo", shell := true }

/-- Concrete request: repl session `r`. -/
def reqC7 : Req := { req0 with repl := some "r" }

/-- Concrete request: no prompt argument (and no editor, repl or interactive flag). -/
def reqC8 : Req := { req0 with prompt := none }

/-- Concrete request: chat `c`, second-AI one-shot, shell flag set. -/
def reqC9 : Req :=
  { req0 with chat := some "c", second_ai := true, second_ai_prompt := some "q", shell := true }

/-! ### Loop lemmas -/

/-- A `None` optional string is falsy. -/
theorem truthy_none : truthy none = false := rfl

/-- The interactive loop never returns normally and never raises: its outcome is
always fuel exhaustion (external interrupt). -/
theorem interactiveLoop_snd (env : Env) (r : Role) (cid : Option String) :
    ∀ i k fuel, (interactiveLoop env r cid i k fuel).2 = Outcome.outOfFuel := by
  intro i k fuel
  induction fuel generalizing i k with
  | zero => rfl
  | succ n ih => simp [interactiveLoop, ih]

/-- The repl loop never returns normally and never raises. -/
theorem replLoop_snd (env : Env) (r : Role) (replId : String) :
    ∀ i k fuel, (replLoop env r replId i k fuel).2 = Outcome.outOfFuel := by
  intro i k fuel
  induction fuel generalizing i k with
  | zero => rfl
  | succ n ih => simp [replLoop, ih]

/-- The dual-agent loop never returns normally and never raises. -/
theorem dualLoop_snd (env : Env) (r : Role) (chat : Option String) :
    ∀ p sp k fuel, (dualLoop env r chat p sp k fuel).2 = Outcome.outOfFuel := by
  intro p sp k fuel
  induction fuel generalizing p sp k with
  | zero => rfl
  | succ n ih => simp [dualLoop, ih]

/-- With a defined `full_completion`, the shell-confirmation loop never returns
normally and never raises, whatever choices are made: no branch breaks out. -/
theorem shellLoop_some_snd (env : Env) (cmd : String) :
    ∀ c k fuel, (shellLoop env (some cmd) c k fuel).2 = Outcome.outOfFuel := by
  intro c k fuel
  induction fuel generalizing c k with
  | zero => rfl
  | succ n ih =>
    cases h : env.shellChoices c <;> simp [shellLoop, h, ih]

/-- Every iteration of the shell-confirmation loop starts by presenting the
choice prompt. -/
theorem shellLoop_head (env : Env) (fc : Option String) (c k fuel : Nat) :
    ((shellLoop env fc c k (fuel + 1)).1).head? = some Event.choicePrompt := by
  cases h : env.shellChoices c <;> cases fc <;> simp [shellLoop, h]

/-- The interactive loop never presents the shell-confirmation prompt. -/
theorem interactiveLoop_no_choicePrompt (env : Env) (r : Role) (cid : Option String) :
    ∀ i k fuel, Event.choicePrompt ∉ (interactiveLoop env r cid i k fuel).1 := by
  intro i k fuel
  induction fuel generalizing i k with
  | zero => simp [interactiveLoop]
  | succ n ih =>
    simp [interactiveLoop, handle_user_input, handleEvent]
    exact ih _ _

/-- The repl loop never presents the shell-confirmation prompt. -/
theorem replLoop_no_choicePrompt (env : Env) (r : Role) (replId : String) :
    ∀ i k fuel, Event.choicePrompt ∉ (replLoop env r replId i k fuel).1 := by
  intro i k fuel
  induction fuel generalizing i k with
  | zero => simp [replLoop]
  | succ n ih =>
    simp [replLoop, handleEvent]
    exact ih _ _

/-- The dual-agent loop never presents the shell-confirmation prompt. -/
theorem dualLoop_no_choicePrompt (env : Env) (r : Role) (chat : Option String) :
    ∀ p sp k fuel, Event.choicePrompt ∉ (dualLoop env r chat p sp k fuel).1 := by
  intro p sp k fuel
  induction fuel generalizing p sp k with
  | zero => simp [dualLoop]
  | succ n ih =>
    simp [dualLoop]
    exact ih _ _ _

/-- Every positive-fuel run of the shell-confirmation loop contains the choice
prompt in its trace. -/
theorem shellLoop_choicePrompt_mem (env : Env) (fc : Option String) (c k fuel : Nat) :
    Event.choicePrompt ∈ (shellLoop env fc c k (fuel + 1)).1 := by
  cases h : env.shellChoices c <;> cases fc <;> simp [shellLoop, h]

/-- A string that embeds two newline characters is never empty. -/
theorem append_newlines_not_isEmpty (s t : String) :
    (s ++ "\n\n" ++ t).isEmpty = false := by
  cases he : (s ++ "\n\n" ++ t).isEmpty
  · rfl
  · exfalso
    have h : s ++ "\n\n" ++ t = "" := by
      rwa [String.isEmpty_iff] at he
    have hl := congrArg String.length h
    simp [String.length_append] at hl
    exact absurd hl.1.2 (by decide)

/-- Unfolding of `main` on the single-shot default path: once the guards pass
and neither repl nor chat is requested, one default-handler completion is
issued with the (possibly stdin-rewritten) prompt, and the shell-confirmation
loop follows exactly when the shell flag is set and stdin is interactive. -/
theorem main_default_branch (env : Env) (req : Req) (stdin : Option String) (fuel : Nat)
    (hi : req.interactive_mode = false)
    (hmp : (!truthy (rewrittenPrompt stdin req.repl req.prompt) && !req.editor) = false)
    (hm : modeFlagCount req.shell req.describe_shell req.codeFlag ≤ 1)
    (hr : truthy req.repl = false)
    (he : (req.editor && stdin.isSome) = false)
    (hc : truthy req.chat = false) :
    main env req stdin fuel =
      if req.shell && !stdin.isSome then
        (handleEvent env Handler.defaultHandler (resolveRole env req)
            (rewrittenPrompt stdin req.repl req.prompt) none 0
           :: (shellLoop env (some (env.oracle 0)) 0 1 fuel).1,
         (shellLoop env (some (env.oracle 0)) 0 1 fuel).2)
      else
        ([handleEvent env Handler.defaultHandler (resolveRole env req)
            (rewrittenPrompt stdin req.repl req.prompt) none 0], Outcome.finished) := by
  have hm' : ¬ 1 < modeFlagCount req.shell req.describe_shell req.codeFlag := Nat.not_lt.mpr hm
  simp only [main, hi, hmp, hr, he, hc, hm', Bool.false_eq_true, if_false, Bool.not_false,
    Bool.and_true, Bool.and_false, Bool.false_and, if_neg, ite_false]
  split <;> rfl

/-! ### Claims -/

/-- C1, counterexample: with chat id `c`, the second-AI flag and the fixed
secondary prompt `q`, the run produces exactly ONE completion, not two: the
chat handler is called once with `second_ai_prompt`, persisted under the
primary chat id `c`; the primary prompt `p` is never sent and no distinct
secondary chat id is used. This refutes the claim that exactly two
completions are produced, each under its own distinct chat id. -/
theorem C1_counterexample :
    completions (main env0 reqC1 none 5).1 =
      [Event.completion (Handler.chatHandler (some "c")) defaultRole (some "q")
        (some "c") "resp0"]
    ∧ (completions (main env0 reqC1 none 5).1).length ≠ 2 := by
  constructor
  · decide
  · decide

/-- C1, amended: for every request with a truthy chat id, the second-AI flag
and a supplied `second_ai_prompt` that reaches the chat branch (interactive
mode off, no repl, effective prompt non-empty, at most one mode flag, not
editor with stdin) and does not enter the shell-confirmation loop, exactly
one completion is produced — the chat handler once with `second_ai_prompt` —
and it is persisted under the given chat id; the primary prompt is never
sent. -/
theorem C1_second_ai_one_shot (env : Env) (req : Req) (stdin : Option String)
    (fuel : Nat) (q : String)
    (hi : req.interactive_mode = false)
    (hp : truthy (rewrittenPrompt stdin req.repl req.prompt) = true)
    (hm : modeFlagCount req.shell req.describe_shell req.codeFlag ≤ 1)
    (hr : truthy req.repl = false)
    (he : (req.editor && stdin.isSome) = false)
    (hc : truthy req.chat = true)
    (hs : req.second_ai = true)
    (hq : req.second_ai_prompt = some q)
    (hsh : (req.shell && !stdin.isSome) = false) :
    main env req stdin fuel =
      ([Event.completion (Handler.chatHandler req.chat) (resolveRole env req) (some q)
          req.chat (env.oracle 0)], Outcome.finished) := by
  have hm' : ¬ 1 < modeFlagCount req.shell req.describe_shell req.codeFlag :=
    Nat.not_lt.mpr hm
  simp [main, hi, hp, hr, he, hc, hs, hq, hsh, hm', handle_second_ai, handleEvent]
  intro h1 h2
  subst h2
  rw [h1] at hsh
  simp at hsh

/-- C1, witness: the amended claim at the concrete request `reqC1`. -/
theorem C1_second_ai_one_shot_witness :
    main env0 reqC1 none 5 =
      ([Event.completion (Handler.chatHandler (some "c")) defaultRole (some "q")
          (some "c") "resp0"], Outcome.finished) :=
  (C1_second_ai_one_shot env0 reqC1 none 5 "q" (by decide) (by decide) (by decide)
    (by decide) (by decide) (by decide) (by decide) (by decide) (by decide)).trans
    (by decide)

/-- C2: trace of the dual-agent loop at a concrete request (chat id `c`,
prompt `p`, second-AI flag, no fixed secondary prompt) for two iterations,
with the model answering `resp0`, `resp1`, `resp2`, `resp3` in order. The
second primary completion uses prompt `resp0` — the PRIMARY own previous
output — and the second secondary completion uses prompt `resp1` — the
SECONDARY own previous output. The primary output never becomes the secondary
next input, contradicting the claim (and the `--second-ai` help text); the
two conversations are kept under chat ids `c` and `second_ai`. -/
theorem C2_dual_loop_trace :
    main env0 reqC2 none 2 =
      ([Event.completion (Handler.chatHandler (some "c")) defaultRole (some "p")
          (some "c") "resp0",
        Event.output "First AI: resp0",
        Event.completion (Handler.chatHandler (some "second_ai")) defaultRole none
          (some "second_ai") "resp1",
        Event.output "Second AI: resp1",
        Event.completion (Handler.chatHandler (some "c")) defaultRole (some "resp0")
          (some "c") "resp2",
        Event.output "First AI: resp2",
        Event.completion (Handler.chatHandler (some "second_ai")) defaultRole
          (some "resp1") (some "second_ai") "resp3",
        Event.output "Second AI: resp3"],
       Outcome.outOfFuel) := by
  decide

/-- C3: the shell-confirmation loop terminates on NO choice. With the shell
flag and interactive stdin, (i) under a choice stream that selects Execute
first and Abort ever after, the run never finishes for any fuel; (ii) under a
stream of Abort choices alone it never finishes either; (iii) the concrete
two-iteration trace shows Execute running the generated command and the loop
presenting the choice prompt AGAIN afterwards. The source loop body has no
break, so Execute and Abort both fall through to another iteration,
contradicting the claim that they terminate the loop. -/
theorem C3_shell_loop_never_terminates :
    (∀ fuel, (main envE reqC3 none fuel).2 = Outcome.outOfFuel)
    ∧ (∀ fuel, (main env0 reqC3 none fuel).2 = Outcome.outOfFuel)
    ∧ (main envE reqC3 none 2).1 =
        [Event.completion Handler.defaultHandler shellRole (some "p") none "resp0",
         Event.choicePrompt, Event.runCmd "resp0", Event.choicePrompt] := by
  refine ⟨?_, ?_, by decide⟩
  · intro fuel
    have h := main_default_branch envE reqC3 none fuel (by decide) (by decide)
      (by decide) (by decide) (by decide) (by decide)
    have hg : (reqC3.shell && !(none : Option String).isSome) = true := by decide
    rw [h, if_pos hg]
    exact shellLoop_some_snd envE _ 0 1 fuel
  · intro fuel
    have h := main_default_branch env0 reqC3 none fuel (by decide) (by decide)
      (by decide) (by decide) (by decide) (by decide)
    have hg : (reqC3.shell && !(none : Option String).isSome) = true := by decide
    rw [h, if_pos hg]
    exact shellLoop_some_snd env0 _ 0 1 fuel

/-- C4, counterexample: with interactive mode set together with BOTH the shell
and code flags, the run enters the interactive loop and issues a completion
request, and its outcome is fuel exhaustion, not the conflicting-mode error:
the conflict check on line 181 sits after the interactive loop and is never
reached. This refutes the claim that every request with more than one mode
flag fails with a conflicting-mode error before any completion. -/
theorem C4_counterexample :
    (main env0 reqC4 none 1).2 = Outcome.outOfFuel
    ∧ completions (main env0 reqC4 none 1).1 ≠ []
    ∧ (main env0 reqC4 none 1).2 ≠ Outcome.errored (Err.badArgumentUsage conflictMsg) := by
  refine ⟨by decide, by decide, by decide⟩

/-- C4, amended: for every request with more than one of the shell,
describe-shell and code flags set, PROVIDED interactive mode is off and the
missing-parameter check does not fire first (an effective prompt, editor flag
or repl option is present), the run fails with the conflicting-mode
`BadArgumentUsage` error and its trace is empty — no completion request is
ever made. -/
theorem C4_conflicting_modes (env : Env) (req : Req) (stdin : Option String) (fuel : Nat)
    (hi : req.interactive_mode = false)
    (hm : 2 ≤ modeFlagCount req.shell req.describe_shell req.codeFlag)
    (hmp : (!truthy (rewrittenPrompt stdin req.repl req.prompt) && !req.editor
            && !truthy req.repl) = false) :
    main env req stdin fuel = ([], Outcome.errored (Err.badArgumentUsage conflictMsg)) := by
  have hm' : 1 < modeFlagCount req.shell req.describe_shell req.codeFlag := hm
  simp [main, hi, hmp, hm']

/-- C4, witness: the amended claim at a concrete request with both the shell
and code flags. -/
theorem C4_conflicting_modes_witness :
    main env0 { reqC4 with interactive_mode := false } none 1 =
      ([], Outcome.errored (Err.badArgumentUsage conflictMsg)) :=
  C4_conflicting_modes env0 { reqC4 with interactive_mode := false } none 1
    (by decide) (by decide) (by decide)

/-- C5, counterexample: with an explicit named role (resolving to a free-text
persona) together with the shell flag and interactive stdin, the
shell-confirmation loop IS entered although the resolved role expected output
kind is not ShellCommand: the loop guard on line 258 tests the raw shell flag,
not the resolved role. This refutes the claimed equivalence. -/
theorem C5_counterexample :
    (resolveRole env0 reqC5).expected_output_kind ≠ OutputKind.shellCommand
    ∧ Event.choicePrompt ∈ (main env0 reqC5 none 1).1 := by
  refine ⟨by decide, by decide⟩

/-- C5, amended: (i) with piped stdin the shell-confirmation loop is never
entered, for any flags, environment and fuel; (ii) on the reachable
single-shot default path with interactive stdin (interactive mode off, no
repl, no chat, missing-parameter check passing, at most one mode flag), the
loop is entered exactly when the shell FLAG is set; (iii) when no explicit
role name is supplied, the shell flag being set coincides with the resolved
role expected output kind being ShellCommand — so the claimed equivalence
holds only in the absence of an explicit named role. -/
theorem C5_shell_loop_entry :
    (∀ (env : Env) (req : Req) (s : String) (fuel : Nat),
      Event.choicePrompt ∉ (main env req (some s) fuel).1)
    ∧ (∀ (env : Env) (req : Req) (fuel : Nat),
        req.interactive_mode = false →
        truthy req.repl = false →
        truthy req.chat = false →
        (!truthy (rewrittenPrompt none req.repl req.prompt) && !req.editor) = false →
        modeFlagCount req.shell req.describe_shell req.codeFlag ≤ 1 →
        (Event.choicePrompt ∈ (main env req none (fuel + 1)).1 ↔ req.shell = true))
    ∧ (∀ (env : Env) (req : Req), truthy req.role = false →
        ((resolveRole env req).expected_output_kind = OutputKind.shellCommand
          ↔ req.shell = true)) := by
  refine ⟨?_, ?_, ?_⟩
  · intro env req s fuel
    simp only [main, Option.isSome_some, Bool.not_true, Bool.and_false,
      Bool.false_eq_true, if_false]
    split
    · exact interactiveLoop_no_choicePrompt env _ req.chat 0 0 fuel
    split
    · simp
    split
    · simp
    split
    · simp
    split
    · simp
    split
    · exact replLoop_no_choicePrompt env _ _ 0 0 fuel
    split
    · split
      · simp [handle_second_ai, handleEvent]
      · exact dualLoop_no_choicePrompt env _ req.chat _ req.second_ai_prompt 0 fuel
    · simp [handleEvent]
  · intro env req fuel hi hr hc hmp hm
    have h := main_default_branch env req none (fuel + 1) hi hmp hm hr
      (by simp) hc
    rw [h]
    cases hsh : req.shell with
    | true =>
      rw [if_pos (show ((true : Bool) && !(none : Option String).isSome) = true by decide)]
      simp only [List.mem_cons]
      constructor
      · intro _
        trivial
      · intro _
        exact Or.inr (shellLoop_choicePrompt_mem env _ 0 1 fuel)
    | false =>
      rw [if_neg (show ¬((false : Bool) && !(none : Option String).isSome) = true by decide)]
      simp [handleEvent]
  · intro env req hrole
    cases hs : req.shell with
    | true => simp [resolveRole, hrole, check_get, hs, shellRole]
    | false =>
      cases hd : req.describe_shell <;> cases hcf : req.codeFlag <;>
        simp [resolveRole, hrole, check_get, hs, hd, hcf, shellRole,
          describeShellRole, codeRole, defaultRole]

/-- C5, witness: the amended claim instantiated concretely — piped stdin never
enters the loop; with interactive stdin the shell-flag request enters it; with
no explicit role the flag coincides with a ShellCommand persona. -/
theorem C5_shell_loop_entry_witness :
    Event.choicePrompt ∉ (main env0 req0 (some "x") 1).1
    ∧ (Event.choicePrompt ∈ (main env0 reqC3 none 1).1 ↔ reqC3.shell = true)
    ∧ ((resolveRole env0 req0).expected_output_kind = OutputKind.shellCommand
        ↔ req0.shell = true) :=
  ⟨C5_shell_loop_entry.1 env0 req0 "x" 1,
   C5_shell_loop_entry.2.1 env0 reqC3 0 (by decide) (by decide) (by decide)
     (by decide) (by decide),
   C5_shell_loop_entry.2.2 env0 req0 (by decide)⟩

/-- C6: on the single-shot shell path with interactive stdin, when the first
confirmation choice is Describe, the trace starts with the shell-command
completion, the first choice prompt, then a NEW default-handler completion
whose role is the shell-description persona and whose prompt is the
previously generated shell command, followed by the choice prompt being
presented again: the loop returns to the Presented state instead of
terminating. -/
theorem C6_describe_requests_and_loops (env : Env) (req : Req) (fuel : Nat)
    (hi : req.interactive_mode = false)
    (hp : truthy req.prompt = true)
    (hr : truthy req.repl = false)
    (hc : truthy req.chat = false)
    (hsh : req.shell = true)
    (hd : req.describe_shell = false)
    (hcf : req.codeFlag = false)
    (hch : env.shellChoices 0 = SChoice.d) :
    ((main env req none (fuel + 2)).1).take 4 =
      [Event.completion Handler.defaultHandler (resolveRole env req) req.prompt none
         (env.oracle 0),
       Event.choicePrompt,
       Event.completion Handler.defaultHandler describeShellRole
         (some (env.oracle 0)) none (env.oracle 1),
       Event.choicePrompt] := by
  have hm : modeFlagCount req.shell req.describe_shell req.codeFlag ≤ 1 := by
    simp [modeFlagCount, hsh, hd, hcf]
  have hmp : (!truthy (rewrittenPrompt none req.repl req.prompt) && !req.editor) = false := by
    simp [rewrittenPrompt, hp]
  have h := main_default_branch env req none (fuel + 2) hi hmp hm hr (by simp) hc
  have hg : (req.shell && !(none : Option String).isSome) = true := by simp [hsh]
  rw [h, if_pos hg]
  show (handleEvent env Handler.defaultHandler (resolveRole env req)
      (rewrittenPrompt none req.repl req.prompt) none 0
        :: (shellLoop env (some (env.oracle 0)) 0 1 (fuel + 2)).1).take 4 = _
  have hstep : (shellLoop env (some (env.oracle 0)) 0 1 (fuel + 2)).1 =
      Event.choicePrompt
        :: handleEvent env Handler.defaultHandler describeShellRole
             (some (env.oracle 0)) none 1
        :: (shellLoop env (some (env.oracle 0)) 1 2 (fuel + 1)).1 := by
    simp [shellLoop, hch]
  rw [hstep]
  have hhead := shellLoop_head env (some (env.oracle 0)) 1 2 fuel
  cases htl : (shellLoop env (some (env.oracle 0)) 1 2 (fuel + 1)).1 with
  | nil => rw [htl] at hhead; simp at hhead
  | cons a l =>
    rw [htl] at hhead
    simp only [List.head?_cons, Option.some.injEq] at hhead
    subst hhead
    simp [handleEvent, rewrittenPrompt, List.take]

/-- C6, witness: the concrete Describe trace with choice stream `d, a, a, ...`. -/
theorem C6_describe_requests_and_loops_witness :
    ((main envD reqC3 none 2).1).take 4 =
      [Event.completion Handler.defaultHandler shellRole (some "p") none "resp0",
       Event.choicePrompt,
       Event.completion Handler.defaultHandler describeShellRole (some "resp0") none
         "resp1",
       Event.choicePrompt] :=
  (C6_describe_requests_and_loops envD reqC3 0 (by decide) (by decide) (by decide)
    (by decide) (by decide) (by decide) (by decide) (by decide)).trans (by decide)

/-- C7: the interactive and REPL loops are unbounded. For every environment
(hence every sequence of user inputs) and every fuel bound, (i) a run with the
interactive flag ends by fuel exhaustion (external interrupt), never by normal
return or error; (ii) a run that reaches the repl branch (interactive off,
truthy repl option, at most one mode flag, no chat, not editor with stdin)
likewise ends only by fuel exhaustion: no in-band input value terminates
either loop. -/
theorem C7_loops_unbounded :
    (∀ (env : Env) (req : Req) (stdin : Option String) (fuel : Nat),
      req.interactive_mode = true →
      (main env req stdin fuel).2 = Outcome.outOfFuel)
    ∧ (∀ (env : Env) (req : Req) (stdin : Option String) (fuel : Nat),
        req.interactive_mode = false →
        truthy req.repl = true →
        modeFlagCount req.shell req.describe_shell req.codeFlag ≤ 1 →
        truthy req.chat = false →
        (req.editor && stdin.isSome) = false →
        (main env req stdin fuel).2 = Outcome.outOfFuel) := by
  constructor
  · intro env req stdin fuel hi
    simp only [main, hi, if_true]
    exact interactiveLoop_snd env _ req.chat 0 0 fuel
  · intro env req stdin fuel hi hr hm hc he
    have hm' : ¬ 1 < modeFlagCount req.shell req.describe_shell req.codeFlag :=
      Nat.not_lt.mpr hm
    simp [main, hi, hr, hc, he, hm']
    exact replLoop_snd env _ _ 0 0 fuel

/-- C7, witness: the interactive conjunct at `reqC4` and the repl conjunct at
`reqC7`, each with fuel 1. -/
theorem C7_loops_unbounded_witness :
    (main env0 reqC4 none 1).2 = Outcome.outOfFuel
    ∧ (main env0 reqC7 none 1).2 = Outcome.outOfFuel :=
  ⟨C7_loops_unbounded.1 env0 reqC4 none 1 (by decide),
   C7_loops_unbounded.2 env0 reqC7 none 1 (by decide) (by decide) (by decide)
     (by decide) (by decide)⟩

/-- C8, counterexample: with piped stdin `hi` and no prompt argument, editor
flag, repl option or interactive flag, the run does NOT fail with a
missing-parameter error: line 161 rewrites the prompt to the stdin content
plus two newlines, which is non-empty, so the check on line 178 passes and a
completion is issued. This refutes the claim for piped standard input. -/
theorem C8_counterexample :
    main env0 reqC8 (some "hi") 1 =
      ([Event.completion Handler.defaultHandler defaultRole (some "hi\n\n") none
          "resp0"], Outcome.finished) := by
  decide

/-- C8, amended: for every invocation with INTERACTIVE standard input in which
the prompt argument, the editor flag, the repl option and the interactive-mode
flag are all absent, the run fails with the missing-parameter error and an
empty trace — before resolving any role or issuing any completion request. -/
theorem C8_missing_parameter (env : Env) (req : Req) (fuel : Nat)
    (hp : req.prompt = none)
    (he : req.editor = false)
    (hr : truthy req.repl = false)
    (hi : req.interactive_mode = false) :
    main env req none fuel = ([], Outcome.errored Err.missingParameter) := by
  simp [main, hp, he, hr, hi, rewrittenPrompt, truthy_none]

/-- C8, witness: the amended claim at the concrete request with no prompt. -/
theorem C8_missing_parameter_witness :
    main env0 reqC8 none 1 = ([], Outcome.errored Err.missingParameter) :=
  C8_missing_parameter env0 reqC8 1 (by decide) (by decide) (by decide) (by decide)

/-- C9: on the chat plus second-AI one-shot path combined with the shell flag
and interactive stdin, the shell-confirmation loop IS reached although the
single-shot default handler never ran, so `full_completion` was never
assigned: choosing Execute evaluates the unbound variable and the run ends
with a NameError — no command is ever passed to the executor. This refutes
the claimed safety property and pinpoints the crash. -/
theorem C9_execute_unbound_full_completion :
    main envE reqC9 none 3 =
      ([Event.completion (Handler.chatHandler (some "c")) shellRole (some "q")
          (some "c") "resp0",
        Event.choicePrompt],
       Outcome.errored (Err.nameError "full_completion")) := by
  decide

/-- C10: for every invocation with piped stdin and no repl option that reaches
the single-shot default path, the completion actually issued carries exactly
the prompt `stdin content ++ "\n\n" ++ prompt argument` (with the empty string
for an absent prompt argument). -/
theorem C10_stdin_prompt_concatenation (env : Env) (req : Req) (s : String) (fuel : Nat)
    (hi : req.interactive_mode = false)
    (hr : truthy req.repl = false)
    (hc : truthy req.chat = false)
    (he : req.editor = false)
    (hm : modeFlagCount req.shell req.describe_shell req.codeFlag ≤ 1) :
    ((main env req (some s) fuel).1).head? =
      some (Event.completion Handler.defaultHandler (resolveRole env req)
        (some (s ++ "\n\n" ++ req.prompt.getD "")) none (env.oracle 0)) := by
  have hpr : rewrittenPrompt (some s) req.repl req.prompt =
      some (s ++ "\n\n" ++ req.prompt.getD "") := by
    simp [rewrittenPrompt, hr]
  have hmp : (!truthy (rewrittenPrompt (some s) req.repl req.prompt) && !req.editor) = false := by
    simp [hpr, truthy, append_newlines_not_isEmpty]
  have h := main_default_branch env req (some s) fuel hi hmp hm hr (by simp [he]) hc
  rw [h, if_neg (by simp)]
  simp [handleEvent, hpr]

/-- C10, witness: piped stdin `hi` with prompt argument `p` issues the
completion with prompt `hi\n\np`. -/
theorem C10_stdin_prompt_concatenation_witness :
    ((main env0 req0 (some "hi") 1).1).head? =
      some (Event.completion Handler.defaultHandler defaultRole (some "hi\n\np") none
        "resp0") :=
  (C10_stdin_prompt_concatenation env0 req0 "hi" 1 (by decide) (by decide) (by decide)
    (by decide) (by decide)).trans (by decide)

end SGpt
